import Mathlib

/-!
Shallow embedding of the signton digital-signage player core: the playlist
scheduler (`checkSchedule` in `PlayerView`), the playback cursor updates,
the advance-timer effect, YouTube id extraction (`getYouTubeId`), the
display-duration computation, and device registration
(`registerDevice` in `SignageContext`).  Every definition is translated
from the TypeScript source; `specMatches` is the spec-side schedule
predicate used to compare the source scanner against the spec wording.
-/

namespace Signton

/-- Media kinds (the `MediaType` enum referenced as `MediaType.IMAGE` /
`MediaType.VIDEO` throughout the source). -/
inductive MediaType where
  | image
  | video
deriving DecidableEq

/-- Modelled from the spec: the `MediaItem` entity of `../types` (the type
declaration file is not in the provided sources); fields follow the spec's
data model and every use site in the source (`id`, `name`, `type`, `url`,
default `duration` in whole seconds, `orientation`). -/
structure MediaItem where
  id : String
  name : String
  type : MediaType
  url : String
  duration : Nat
  orientation : String
deriving DecidableEq

/-- Modelled from the spec: a playlist entry `{mediaId, duration}` as in the
admin editor's `selectedItems : {mediaId: string, duration: number}[]`. -/
structure PlaylistItem where
  mediaId : String
  duration : Nat
deriving DecidableEq

/-- Modelled from the spec: the schedule block written by the playlist
editor (`days`, `startTime`, `endTime`, `active`). -/
structure Schedule where
  days : List Nat
  startTime : String
  endTime : String
  active : Bool
deriving DecidableEq

/-- Modelled from the spec: the `Playlist` entity as constructed by the
admin editor (`id`, `name`, `orientation`, `schedule`, `items`). -/
structure Playlist where
  id : String
  name : String
  orientation : String
  schedule : Schedule
  items : List PlaylistItem
deriving DecidableEq

/-- Modelled from the spec: the `ScreenDevice` entity as constructed in
`PlayerView` registration (`id`, `name`, `location`, `status`,
`assignedPlaylistId`, `lastPing`); `none` for a `null` assignment. -/
structure ScreenDevice where
  id : String
  name : String
  location : String
  status : String
  assignedPlaylistId : Option String
  lastPing : Nat
deriving DecidableEq

/-- Wall-clock sample as read in `checkSchedule`: `now.getDay()` (0-6) and
the hour/minute pair used to build the "HH:MM" string. -/
structure Now where
  day : Nat
  hours : Nat
  minutes : Nat
deriving DecidableEq

/-- `String(n).padStart(2, '0')` for the numbers produced by
`getHours()`/`getMinutes()`. -/
def pad2 (n : Nat) : String :=
  if n < 10 then "0" ++ toString n else toString n

/-- The `currentTime` template string of `checkSchedule`. -/
def timeStr (now : Now) : String :=
  pad2 now.hours ++ ":" ++ pad2 now.minutes

/-- Lexicographic order on character lists; JS `<=` on strings is this
order on code units, which coincides with it on ASCII data. -/
def charListLe : List Char → List Char → Bool
  | [], _ => true
  | _ :: _, [] => false
  | a :: as, b :: bs =>
    if a < b then true
    else if a = b then charListLe as bs
    else false

/-- JS string `<=` as used for the time-window comparison. -/
def strLe (a b : String) : Bool :=
  charListLe a.data b.data

/-- JS `Array.prototype.includes` on a number list
(`p.schedule.days.includes(currentDay)`). -/
def natListHas (d : Nat) : List Nat → Bool
  | [] => false
  | x :: xs => x == d || natListHas d xs

/-- The schedule predicate inside `checkSchedule`'s `find` callback:
inactive or wrong-day playlists are rejected, then
`currentTime >= startTime && currentTime <= endTime` (string comparison). -/
def scheduleMatches (p : Playlist) (now : Now) : Bool :=
  if !p.schedule.active then false
  else if !(natListHas now.day p.schedule.days) then false
  else strLe p.schedule.startTime (timeStr now) && strLe (timeStr now) p.schedule.endTime

/-- Spec-side wording of the same predicate: `schedule.active` is true,
`schedule.days` contains the current weekday, and
`startTime <= timeOfDay <= endTime` lexicographically, inclusive at both
bounds.  Stated separately so the source scanner can be compared with it. -/
def specMatches (p : Playlist) (now : Now) : Prop :=
  p.schedule.active = true ∧ now.day ∈ p.schedule.days ∧
    strLe p.schedule.startTime (timeStr now) = true ∧
    strLe (timeStr now) p.schedule.endTime = true

/-- The `targetPlaylist` computation of `checkSchedule`: if the device
record is found and `assignedPlaylistId` is truthy (non-null and
non-empty, per JS truthiness), look the playlist up by id; otherwise scan
the schedule.  `find(...) || null` maps a miss to `none`. -/
def resolveActivePlaylist (devices : List ScreenDevice) (deviceId : String)
    (playlists : List Playlist) (now : Now) : Option Playlist :=
  match devices.find? (fun d => d.id == deviceId) with
  | some d =>
    match d.assignedPlaylistId with
    | some pid =>
      if pid = "" then playlists.find? (fun p => scheduleMatches p now)
      else playlists.find? (fun p => p.id == pid)
    | none => playlists.find? (fun p => scheduleMatches p now)
  | none => playlists.find? (fun p => scheduleMatches p now)

/-- The player-local playback state touched by `checkSchedule` and the
timer effect: `activePlaylist`, `currentMediaIndex`, `mediaError`. -/
structure PlayerCursor where
  activePlaylist : Option Playlist
  currentMediaIndex : Nat
  mediaError : Bool
deriving DecidableEq

/-- The state update performed by `checkSchedule` once `targetPlaylist` is
known: a new or different playlist resets the index and clears the error;
the same playlist with changed items (the `JSON.stringify` comparison,
which is item-list equality here) keeps the index unless it is out of
range of the new list; a `null` target only clears `activePlaylist`. -/
def applyTarget (cursor : PlayerCursor) (target : Option Playlist) : PlayerCursor :=
  match target with
  | some t =>
    match cursor.activePlaylist with
    | none => ⟨some t, 0, false⟩
    | some a =>
      if a.id = t.id then
        if a.items = t.items then cursor
        else
          ⟨some t,
           if cursor.currentMediaIndex ≥ t.items.length then 0
           else cursor.currentMediaIndex,
           false⟩
      else ⟨some t, 0, false⟩
  | none => { cursor with activePlaylist := none }

/-- One full `checkSchedule` tick: resolve the target playlist, then apply
the state update. -/
def checkScheduleStep (devices : List ScreenDevice) (deviceId : String)
    (playlists : List Playlist) (now : Now) (cursor : PlayerCursor) : PlayerCursor :=
  applyTarget cursor (resolveActivePlaylist devices deviceId playlists now)

/-- `activePlaylist?.items[currentMediaIndex]` (out-of-range reads give
`undefined`). -/
def currentPlaylistItem (cursor : PlayerCursor) : Option PlaylistItem :=
  match cursor.activePlaylist with
  | some p => p.items.get? cursor.currentMediaIndex
  | none => none

/-- `getMediaById` from `SignageContext`:
`state.mediaLibrary.find(m => m.id === id)`. -/
def getMediaById (lib : List MediaItem) (id : String) : Option MediaItem :=
  lib.find? (fun m => m.id == id)

/-- `currentMedia`: the catalog lookup of the current item's `mediaId`,
`undefined` when the item is absent or the reference dangles. -/
def currentMedia (lib : List MediaItem) (cursor : PlayerCursor) : Option MediaItem :=
  match currentPlaylistItem cursor with
  | some it => getMediaById lib it.mediaId
  | none => none

/-- `\w` of the extraction regex: ASCII letters, digits, underscore. -/
def isWordChar (c : Char) : Bool :=
  ('a' ≤ c && c ≤ 'z') || ('A' ≤ c && c ≤ 'Z') || ('0' ≤ c && c ≤ '9') || c = '_'

/-- One alternative of the regex group
`(youtu.be\/|v\/|u\/\w\/|embed\/|watch\?v=|&v=)` matched at the head of
the list; the `.` of `youtu.be` matches any character except a newline.
The six alternatives begin with pairwise distinct characters, so at most
one can match at a given position. -/
def matchMarker (l : List Char) : Option (List Char) :=
  match l with
  | 'y' :: 'o' :: 'u' :: 't' :: 'u' :: c :: 'b' :: 'e' :: '/' :: rest =>
    if c = '\n' then none else some rest
  | 'v' :: '/' :: rest => some rest
  | 'u' :: '/' :: c :: '/' :: rest => if isWordChar c then some rest else none
  | 'e' :: 'm' :: 'b' :: 'e' :: 'd' :: '/' :: rest => some rest
  | 'w' :: 'a' :: 't' :: 'c' :: 'h' :: '?' :: 'v' :: '=' :: rest => some rest
  | '&' :: 'v' :: '=' :: rest => some rest
  | _ => none

/-- Position at which the regex captures group 1: the greedy leading
`^.*` places the marker at the last position where an alternative
matches; positions past the first newline are unreachable because `.`
does not cross newlines. -/
def findLastMarker : List Char → Option (List Char)
  | [] => none
  | c :: cs =>
    match (if c = '\n' then none else findLastMarker cs) with
    | some r => some r
    | none => matchMarker (c :: cs)

/-- `getYouTubeId` from `PlayerView`: run the regex, take group 2
(`[^#&?]*` after the marker), and return it only when its length is
exactly 11.  Length is counted in characters; JS counts UTF-16 units,
which is the same count on ASCII data. -/
def getYouTubeId (url : String) : Option String :=
  match findLastMarker url.data with
  | none => none
  | some rest =>
    let g2 := rest.takeWhile (fun c => !(c == '#' || c == '&' || c == '?'))
    if g2.length = 11 then some ⟨g2⟩ else none

/-- The `youtubeId` binding of `PlayerView`:
`(currentMedia?.type === MediaType.VIDEO && currentMedia.url) ?
getYouTubeId(currentMedia.url) : null`. -/
def youtubeIdOf (lib : List MediaItem) (cursor : PlayerCursor) : Option String :=
  match currentMedia lib cursor with
  | some m =>
    if m.type == MediaType.video && !(m.url == "") then getYouTubeId m.url else none
  | none => none

/-- `displayDurationMs = (currentPlaylistItem?.duration ||
currentMedia?.duration || 10) * 1000`; JS `||` skips both `undefined`
and `0`, so a missing binding and a zero duration fall through alike. -/
def displayDurationMs (lib : List MediaItem) (cursor : PlayerCursor) : Nat :=
  let d1 : Nat :=
    match currentPlaylistItem cursor with
    | some it => it.duration
    | none => 0
  let d2 : Nat :=
    match currentMedia lib cursor with
    | some m => m.duration
    | none => 0
  (if d1 ≠ 0 then d1 else if d2 ≠ 0 then d2 else 10) * 1000

/-- `handleNext`: clear the error flag and advance the index modulo the
active playlist's length (no-op without an active playlist). -/
def handleNext (cursor : PlayerCursor) : PlayerCursor :=
  match cursor.activePlaylist with
  | none => cursor
  | some p =>
    { cursor with
        mediaError := false
        currentMediaIndex := (cursor.currentMediaIndex + 1) % p.items.length }

/-- The advance timer armed by the timer effect, as the delay in
milliseconds (`none` when the effect arms nothing).  The effect returns
early unless `deviceId`, `mediaId` and `activePlaylist` are all truthy;
it arms `setTimeout(handleNext, duration)` only for images, YouTube
items, or an error state, with a 3000 ms delay in the error case. -/
def armedTimer (deviceId : Option String) (lib : List MediaItem)
    (cursor : PlayerCursor) : Option Nat :=
  match deviceId with
  | none => none
  | some did =>
    if did = "" then none
    else
      match currentMedia lib cursor with
      | none => none
      | some m =>
        if m.id = "" then none
        else
          match cursor.activePlaylist with
          | none => none
          | some _ =>
            if m.type == MediaType.image || (youtubeIdOf lib cursor).isSome
                || cursor.mediaError then
              some (if cursor.mediaError then 3000 else displayDurationMs lib cursor)
            else none

/-- `registerDevice` from `SignageContext` on the `devices` collection:
when a record with the same id exists, patch only `status` and
`lastPing`; otherwise store the given document. -/
def registerDevice (devices : List ScreenDevice) (device : ScreenDevice)
    (nowMs : Nat) : List ScreenDevice :=
  if devices.any (fun d => d.id == device.id) then
    devices.map (fun d =>
      if d.id == device.id then { d with status := "online", lastPing := nowMs } else d)
  else
    devices ++ [device]

/-- Substring-at-head test on character lists, for describing URLs. -/
def startsWithChars : List Char → List Char → Bool
  | [], _ => true
  | _ :: _, [] => false
  | a :: as, b :: bs => a == b && startsWithChars as bs

/-- Substring occurrence on character lists, for describing URLs. -/
def occursIn (pat : List Char) : List Char → Bool
  | [] => startsWithChars pat []
  | c :: cs => startsWithChars pat (c :: cs) || occursIn pat cs

/-- Substring occurrence on strings. -/
def strOccurs (pat s : String) : Bool :=
  occursIn pat.data s.data

/-- Suffix test on strings, for describing ".mp4" URLs. -/
def strEndsWith (suf s : String) : Bool :=
  startsWithChars suf.data.reverse s.data.reverse

/-- Device whose forced assignment is the empty string: non-null, yet
falsy under the JS truthiness test in `checkSchedule`. -/
def devEmptyAssign : ScreenDevice :=
  ⟨"d1", "Device d1", "Unknown", "online", some "", 0⟩

/-- Playlist stored under the empty-string id, with an inactive schedule. -/
def playlistEmptyId : Playlist :=
  ⟨"", "Lobby", "landscape", ⟨[], "06:00", "22:00", false⟩, [⟨"m1", 5⟩]⟩

/-- Device with a normal (non-empty) forced assignment. -/
def devForced1 : ScreenDevice :=
  ⟨"d1", "Device d1", "Unknown", "online", some "p9", 0⟩

/-- Playlist referenced by `devForced1`, scheduled for a different day. -/
def playlistPromo1 : Playlist :=
  ⟨"p9", "Promo", "landscape", ⟨[2], "09:00", "10:00", true⟩, [⟨"m1", 5⟩]⟩

/-- Device with a null assignment, resolved by schedule. -/
def devSched2 : ScreenDevice :=
  ⟨"d2", "Device d2", "Lobby", "online", none, 0⟩

/-- First playlist of the collection; window 06:00-22:00 on Mondays. -/
def playlistMorning2 : Playlist :=
  ⟨"pm", "Morning", "landscape", ⟨[1], "06:00", "22:00", true⟩, [⟨"m1", 5⟩]⟩

/-- Second playlist; matches every day, all day. -/
def playlistAllDay2 : Playlist :=
  ⟨"pa", "AllDay", "landscape",
   ⟨[0, 1, 2, 3, 4, 5, 6], "00:00", "23:59", true⟩, [⟨"m2", 5⟩]⟩

/-- Device with a null assignment, for the identity-change scenarios. -/
def devNoAssign3 : ScreenDevice :=
  ⟨"d3", "Device d3", "Hall", "online", none, 0⟩

/-- Three-item playlist that is live during the Monday window. -/
def playlistLive3 : Playlist :=
  ⟨"pl", "Live", "landscape", ⟨[1], "06:00", "22:00", true⟩,
   [⟨"m1", 5⟩, ⟨"m2", 5⟩, ⟨"m3", 5⟩]⟩

/-- Device forcibly assigned to the empty-item playlist below. -/
def devForced4 : ScreenDevice :=
  ⟨"d4", "Device d4", "Gym", "online", some "p4", 0⟩

/-- Playlist with an active, matching schedule but zero items. -/
def playlistEmptyItems4 : Playlist :=
  ⟨"p4", "Empty", "landscape", ⟨[1], "06:00", "22:00", true⟩, []⟩

/-- Video media item present in the catalog. -/
def mediaClip5 : MediaItem :=
  ⟨"mv", "Clip", MediaType.video, "https://cdn.example.com/clip.mp4", 30, "landscape"⟩

/-- Two-item playlist whose first item is the video above. -/
def playlistVideos5 : Playlist :=
  ⟨"p5", "Videos", "landscape", ⟨[1], "06:00", "22:00", true⟩,
   [⟨"mv", 0⟩, ⟨"mi", 8⟩]⟩

/-- Device forcibly assigned to the playlist being edited live. -/
def devForced6 : ScreenDevice :=
  ⟨"d6", "Device d6", "Cafe", "online", some "pc", 0⟩

/-- The playlist as held by the player before the edit. -/
def playlistOld6 : Playlist :=
  ⟨"pc", "Cafe", "landscape", ⟨[1], "06:00", "22:00", true⟩,
   [⟨"m1", 5⟩, ⟨"m2", 5⟩]⟩

/-- The same playlist after an admin edited the first item's duration. -/
def playlistNew6 : Playlist :=
  ⟨"pc", "Cafe", "landscape", ⟨[1], "06:00", "22:00", true⟩,
   [⟨"m1", 7⟩, ⟨"m2", 5⟩]⟩

/-- The only media item left in the catalog for the dangling scenario. -/
def mediaGood7 : MediaItem :=
  ⟨"m2", "Poster", MediaType.image, "poster.png", 10, "landscape"⟩

/-- Playlist whose first item references the deleted media id "m1". -/
def playlistDangling7 : Playlist :=
  ⟨"p7", "Mixed", "landscape", ⟨[1], "06:00", "22:00", true⟩,
   [⟨"m1", 5⟩, ⟨"m2", 5⟩]⟩

/-- Device forcibly assigned to the playlist with the dangling item. -/
def devForced7 : ScreenDevice :=
  ⟨"d7", "Device d7", "Bar", "online", some "p7", 0⟩

/-- Video media item with a 30 s default duration. -/
def mediaVid8 : MediaItem :=
  ⟨"m8", "Clip8", MediaType.video, "https://cdn.example.com/c8.mp4", 30, "landscape"⟩

/-- Playlist item carrying a zero override duration. -/
def playlistZeroOverride8 : Playlist :=
  ⟨"p8", "Zero", "landscape", ⟨[1], "06:00", "22:00", true⟩, [⟨"m8", 0⟩]⟩

/-- Playlist item carrying a 12 s override duration. -/
def playlistOverride8 : Playlist :=
  ⟨"p8b", "Override", "landscape", ⟨[1], "06:00", "22:00", true⟩, [⟨"m8", 12⟩]⟩

/-- Operator-configured device record already present remotely. -/
def devExisting10 : ScreenDevice :=
  ⟨"d10", "Front Desk", "Lobby", "offline", some "pX", 100⟩

/-- Default document a player submits on registration for the same id. -/
def devIncoming10 : ScreenDevice :=
  ⟨"d10", "Device d10", "Auto-Registered", "online", none, 555⟩

theorem natListHas_iff (d : Nat) : ∀ l : List Nat, natListHas d l = true ↔ d ∈ l
  | [] => by simp [natListHas]
  | x :: xs => by
    simp only [natListHas, Bool.or_eq_true, beq_iff_eq, natListHas_iff d xs,
      List.mem_cons]
    exact or_congr eq_comm Iff.rfl

theorem scheduleMatches_iff (p : Playlist) (now : Now) :
    scheduleMatches p now = true ↔ specMatches p now := by
  simp only [scheduleMatches, specMatches, ← natListHas_iff now.day p.schedule.days]
  cases p.schedule.active <;> cases natListHas now.day p.schedule.days <;>
    simp [Bool.and_eq_true]

theorem find?_first {α : Type} (q : α → Bool) :
    ∀ (l : List α) (a : α), l.find? q = some a →
      ∃ l1 l2, l = l1 ++ a :: l2 ∧ (∀ x ∈ l1, q x = false) ∧ q a = true
  | [], a => by simp
  | b :: bs, a => by
    intro h
    cases hq : q b with
    | true =>
      rw [List.find?_cons_of_pos _ hq] at h
      obtain rfl := Option.some.inj h
      exact ⟨[], bs, rfl, by simp, hq⟩
    | false =>
      rw [List.find?_cons_of_neg _ (by simp [hq])] at h
      obtain ⟨l1, l2, he, h1, h2⟩ := find?_first q bs a h
      refine ⟨b :: l1, l2, by simp [he], ?_, h2⟩
      intro x hx
      rcases List.mem_cons.mp hx with rfl | hx2
      · exact hq
      · exact h1 x hx2

theorem find?_unique {α : Type} (q : α → Bool) :
    ∀ (l : List α) (a : α), a ∈ l → q a = true →
      (∀ b ∈ l, q b = true → b = a) → l.find? q = some a
  | [], a => by simp
  | b :: bs, a => by
    intro ha hq huniq
    cases hqb : q b with
    | true =>
      rw [List.find?_cons_of_pos _ hqb]
      exact congrArg some (huniq b (List.mem_cons_self b bs) hqb)
    | false =>
      rw [List.find?_cons_of_neg _ (by simp [hqb])]
      refine find?_unique q bs a ?_ hq (fun x hx hqx => huniq x (List.mem_cons_of_mem b hx) hqx)
      rcases List.mem_cons.mp ha with rfl | h2
      · rw [hq] at hqb
        cases hqb
      · exact h2

/-- Claim C1, counterexample: a device whose `assignedPlaylistId` is the
non-null empty string, referencing a playlist that is present in the
collection under the id `""`, does not resolve to that playlist — the JS
truthiness test sends resolution to the schedule branch, which here
returns none. -/
theorem c1_counterexample :
    devEmptyAssign.assignedPlaylistId = some playlistEmptyId.id
    ∧ playlistEmptyId ∈ [playlistEmptyId]
    ∧ resolveActivePlaylist [devEmptyAssign] "d1" [playlistEmptyId] ⟨1, 12, 0⟩ = none := by
  refine ⟨rfl, List.mem_singleton.mpr rfl, ?_⟩
  decide

/-- Claim C1, amended: for every device whose `assignedPlaylistId` is
non-null and non-empty, resolution ignores the wall clock and looks the
id up in the playlist collection; if a playlist with that id is present
(and ids are unique) resolution returns exactly it, and if no playlist
carries that id resolution returns none without falling back to the
schedule scan. -/
theorem c1_forced_assignment (devices : List ScreenDevice) (deviceId : String)
    (playlists : List Playlist) (d : ScreenDevice) (pid : String)
    (hfind : devices.find? (fun x => x.id == deviceId) = some d)
    (hassigned : d.assignedPlaylistId = some pid)
    (hpid : pid ≠ "") :
    (∀ now : Now, resolveActivePlaylist devices deviceId playlists now =
        playlists.find? (fun p => p.id == pid))
    ∧ (∀ p ∈ playlists, p.id = pid → (∀ q ∈ playlists, q.id = pid → q = p) →
        ∀ now : Now, resolveActivePlaylist devices deviceId playlists now = some p)
    ∧ ((∀ p ∈ playlists, p.id ≠ pid) →
        ∀ now : Now, resolveActivePlaylist devices deviceId playlists now = none) := by
  have hbase : ∀ now : Now, resolveActivePlaylist devices deviceId playlists now =
      playlists.find? (fun p => p.id == pid) := by
    intro now
    simp only [resolveActivePlaylist, hfind, hassigned]
    exact if_neg hpid
  refine ⟨hbase, ?_, ?_⟩
  · intro p hp hpidEq huniq now
    rw [hbase now]
    exact find?_unique _ playlists p hp (by simp [hpidEq])
      (fun q hq hqe => huniq q hq (by simpa using hqe))
  · intro hnone now
    rw [hbase now]
    exact List.find?_eq_none.mpr (fun p hp => by simp [hnone p hp])

/-- Claim C1, witness: a concrete device forcibly assigned to `"p9"`
resolves to the `"p9"` playlist even at a time its schedule rejects. -/
theorem c1_witness :
    resolveActivePlaylist [devForced1] "d1" [playlistPromo1] ⟨4, 3, 30⟩ =
      some playlistPromo1 :=
  (c1_forced_assignment [devForced1] "d1" [playlistPromo1] devForced1 "p9"
      (by decide) rfl (by decide)).2.1 playlistPromo1
    (List.mem_singleton.mpr rfl) rfl
    (fun q hq _ => List.mem_singleton.mp hq) ⟨4, 3, 30⟩

/-- Claim C2: for a registered device with a null `assignedPlaylistId`,
resolution is exactly the first-match scan of the playlist collection:
it equals `List.find?` of the source predicate; any returned playlist
satisfies the spec conditions (active flag, weekday membership,
inclusive lexicographic time window) and everything before it in the
enumeration fails them; and a none result means no playlist satisfies
them. -/
theorem c2_schedule_resolution (devices : List ScreenDevice) (deviceId : String)
    (playlists : List Playlist) (now : Now) (d : ScreenDevice)
    (hfind : devices.find? (fun x => x.id == deviceId) = some d)
    (hnull : d.assignedPlaylistId = none) :
    resolveActivePlaylist devices deviceId playlists now =
      playlists.find? (fun p => scheduleMatches p now)
    ∧ (∀ q, playlists.find? (fun p => scheduleMatches p now) = some q →
        specMatches q now ∧
          ∃ l1 l2, playlists = l1 ++ q :: l2 ∧ ∀ x ∈ l1, ¬ specMatches x now)
    ∧ (playlists.find? (fun p => scheduleMatches p now) = none ↔
        ∀ p ∈ playlists, ¬ specMatches p now) := by
  refine ⟨by simp only [resolveActivePlaylist, hfind, hnull], ?_, ?_⟩
  · intro q hq
    have hq2 := List.find?_some hq
    refine ⟨(scheduleMatches_iff q now).mp hq2, ?_⟩
    obtain ⟨l1, l2, he, h1, _⟩ := find?_first _ playlists q hq
    refine ⟨l1, l2, he, ?_⟩
    intro x hx hs
    have hb := (scheduleMatches_iff x now).mpr hs
    rw [h1 x hx] at hb
    cases hb
  · constructor
    · intro hn p hp hs
      exact List.find?_eq_none.mp hn p hp ((scheduleMatches_iff p now).mpr hs)
    · intro hall
      exact List.find?_eq_none.mpr
        (fun p hp hs => hall p hp ((scheduleMatches_iff p now).mp hs))

/-- Claim C2, witness: at the inclusive lower boundary 06:00 on a Monday,
with two simultaneously matching playlists, resolution deterministically
returns the first one in enumeration order. -/
theorem c2_witness :
    resolveActivePlaylist [devSched2] "d2" [playlistMorning2, playlistAllDay2]
      ⟨1, 6, 0⟩ = some playlistMorning2 := by
  rw [(c2_schedule_resolution [devSched2] "d2" [playlistMorning2, playlistAllDay2]
      ⟨1, 6, 0⟩ devSched2 (by decide) rfl).1]
  decide

/-- Claim C3, counterexample: when the resolved playlist changes from some
playlist to none, `checkSchedule` only clears `activePlaylist`; the index
stays 2 and the error flag stays set, so the claimed reset does not
happen on the to-none transition. -/
theorem c3_counterexample :
    resolveActivePlaylist [devNoAssign3] "d3" [] ⟨1, 12, 0⟩ = none
    ∧ checkScheduleStep [devNoAssign3] "d3" [] ⟨1, 12, 0⟩
        ⟨some playlistLive3, 2, true⟩ = ⟨none, 2, true⟩ := by
  decide

/-- Claim C3, amended: when resolution yields a playlist and the cursor
holds none or a playlist with a different id, the tick resets the index
to 0 and clears the error flag; when resolution yields none, the tick
only clears `activePlaylist`, leaving index and error flag as they were
(they are reset when a playlist next becomes active, by the first part). -/
theorem c3_identity_change (devices : List ScreenDevice) (deviceId : String)
    (playlists : List Playlist) (now : Now) (cursor : PlayerCursor) :
    (∀ t, resolveActivePlaylist devices deviceId playlists now = some t →
      (cursor.activePlaylist = none ∨
          ∀ a, cursor.activePlaylist = some a → a.id ≠ t.id) →
      checkScheduleStep devices deviceId playlists now cursor = ⟨some t, 0, false⟩)
    ∧ (resolveActivePlaylist devices deviceId playlists now = none →
      checkScheduleStep devices deviceId playlists now cursor =
        ⟨none, cursor.currentMediaIndex, cursor.mediaError⟩) := by
  constructor
  · intro t ht hcond
    simp only [checkScheduleStep, ht, applyTarget]
    cases hc : cursor.activePlaylist with
    | none => rfl
    | some a =>
      have hne : a.id ≠ t.id := by
        rcases hcond with h | h
        · rw [h] at hc
          exact Option.noConfusion hc
        · exact h a hc
      simp [hne]
  · intro hn
    simp only [checkScheduleStep, hn, applyTarget]

/-- Claim C3, witness: a none-to-some transition at a concrete state
resets the stale index 5 to 0 and clears the stale error flag. -/
theorem c3_witness :
    checkScheduleStep [devNoAssign3] "d3" [playlistLive3] ⟨1, 12, 0⟩
      ⟨none, 5, true⟩ = ⟨some playlistLive3, 0, false⟩ :=
  (c3_identity_change [devNoAssign3] "d3" [playlistLive3] ⟨1, 12, 0⟩
      ⟨none, 5, true⟩).1 playlistLive3 (by decide) (Or.inl rfl)

/-- Claim C4, counterexample: resolution has no emptiness filter — a
device forcibly assigned to a zero-item playlist resolves to that empty
playlist, so the playlist returned by resolution can have no items. -/
theorem c4_counterexample :
    resolveActivePlaylist [devForced4] "d4" [playlistEmptyItems4] ⟨1, 12, 0⟩ =
      some playlistEmptyItems4
    ∧ playlistEmptyItems4.items.length = 0 := by
  decide

/-- Claim C4, amended: resolution may return a zero-item playlist, but
such a playlist never drives playback: with an empty active playlist the
current item and current media are none and the timer effect arms
nothing, so the player sits in the awaiting-content state. -/
theorem c4_empty_playlist_inert (lib : List MediaItem) (cursor : PlayerCursor)
    (p : Playlist) (hp : cursor.activePlaylist = some p) (hempty : p.items = []) :
    currentPlaylistItem cursor = none
    ∧ currentMedia lib cursor = none
    ∧ ∀ deviceId : Option String, armedTimer deviceId lib cursor = none := by
  have h1 : currentPlaylistItem cursor = none := by
    simp only [currentPlaylistItem, hp, hempty]
    cases cursor.currentMediaIndex <;> rfl
  have h2 : currentMedia lib cursor = none := by
    unfold currentMedia
    rw [h1]
  refine ⟨h1, h2, ?_⟩
  intro did
  unfold armedTimer
  cases did with
  | none => rfl
  | some s =>
    by_cases hs : s = ""
    · simp [hs]
    · simp [hs, h2]

/-- Claim C4, witness: at the concrete empty playlist, no media and no
timer are produced for playback. -/
theorem c4_witness :
    currentMedia [] ⟨some playlistEmptyItems4, 0, false⟩ = none
    ∧ armedTimer (some "d4") [] ⟨some playlistEmptyItems4, 0, false⟩ = none := by
  have h := c4_empty_playlist_inert [] ⟨some playlistEmptyItems4, 0, false⟩
    playlistEmptyItems4 rfl rfl
  exact ⟨h.2.1, h.2.2 (some "d4")⟩

/-- Claim C5: from any error state whose current item resolves to a
catalog media item, the timer effect arms the fixed 3000 ms fallback
(not the configured duration), and its callback `handleNext`
unconditionally advances to the next index modulo the playlist length
with the failure flag cleared — so the failed state cannot persist past
the fallback delay nor recur without a new error signal. -/
theorem c5_failed_advances (deviceId : String) (lib : List MediaItem)
    (cursor : PlayerCursor) (p : Playlist) (m : MediaItem)
    (hdev : deviceId ≠ "")
    (hp : cursor.activePlaylist = some p)
    (hm : currentMedia lib cursor = some m)
    (hmid : m.id ≠ "")
    (herr : cursor.mediaError = true) :
    armedTimer (some deviceId) lib cursor = some 3000
    ∧ 1 ≤ p.items.length
    ∧ handleNext cursor =
        ⟨some p, (cursor.currentMediaIndex + 1) % p.items.length, false⟩
    ∧ (handleNext cursor).mediaError = false := by
  obtain ⟨ap, idx, err⟩ := cursor
  simp only at hp herr
  subst hp
  subst herr
  have hsome : (currentPlaylistItem ⟨some p, idx, true⟩).isSome = true := by
    unfold currentMedia at hm
    cases h : currentPlaylistItem ⟨some p, idx, true⟩ with
    | none =>
      rw [h] at hm
      exact Option.noConfusion hm
    | some it => rfl
  obtain ⟨it, hit⟩ := Option.isSome_iff_exists.mp hsome
  have hlt : idx < p.items.length := by
    unfold currentPlaylistItem at hit
    exact (List.get?_eq_some.mp hit).1
  refine ⟨?_, by omega, rfl, rfl⟩
  simp [armedTimer, hm, hdev, hmid]

/-- Claim C5, witness: with the first playlist item failed, the timer is
armed at 3000 ms and firing it moves to index 1 with the flag cleared. -/
theorem c5_witness :
    armedTimer (some "d5") [mediaClip5] ⟨some playlistVideos5, 0, true⟩ = some 3000
    ∧ handleNext ⟨some playlistVideos5, 0, true⟩ = ⟨some playlistVideos5, 1, false⟩ := by
  have h := c5_failed_advances "d5" [mediaClip5] ⟨some playlistVideos5, 0, true⟩
    playlistVideos5 mediaClip5 (by decide) rfl (by decide) (by decide) rfl
  refine ⟨h.1, ?_⟩
  rw [h.2.2.1]
  decide

/-- Claim C6: when resolution returns a playlist with the same id as the
active one but different items (for example durations edited live), the
tick installs the new items and keeps the current index when it is still
in range of the new list, resetting it to 0 exactly when it is out of
range; the playlist identity is retained rather than restarted. -/
theorem c6_content_change (devices : List ScreenDevice) (deviceId : String)
    (playlists : List Playlist) (now : Now) (cursor : PlayerCursor)
    (a t : Playlist)
    (ha : cursor.activePlaylist = some a)
    (ht : resolveActivePlaylist devices deviceId playlists now = some t)
    (hid : a.id = t.id)
    (hitems : a.items ≠ t.items) :
    checkScheduleStep devices deviceId playlists now cursor =
      ⟨some t,
       if cursor.currentMediaIndex ≥ t.items.length then 0
       else cursor.currentMediaIndex,
       false⟩
    ∧ (cursor.currentMediaIndex < t.items.length →
        (checkScheduleStep devices deviceId playlists now cursor).currentMediaIndex =
          cursor.currentMediaIndex)
    ∧ (cursor.currentMediaIndex ≥ t.items.length →
        (checkScheduleStep devices deviceId playlists now cursor).currentMediaIndex = 0) := by
  have hstep : checkScheduleStep devices deviceId playlists now cursor =
      ⟨some t,
       if cursor.currentMediaIndex ≥ t.items.length then 0
       else cursor.currentMediaIndex,
       false⟩ := by
    simp only [checkScheduleStep, ht, applyTarget, ha, if_pos hid, if_neg hitems]
  refine ⟨hstep, ?_, ?_⟩
  · intro hlt
    rw [hstep]
    simp [Nat.not_le.mpr hlt]
  · intro hge
    rw [hstep]
    simp [hge]

/-- Claim C6, witness: after an in-place duration edit of a two-item
playlist, the player keeps playing the same playlist id at index 1. -/
theorem c6_witness :
    checkScheduleStep [devForced6] "d6" [playlistNew6] ⟨1, 12, 0⟩
      ⟨some playlistOld6, 1, false⟩ = ⟨some playlistNew6, 1, false⟩ := by
  have h := c6_content_change [devForced6] "d6" [playlistNew6] ⟨1, 12, 0⟩
    ⟨some playlistOld6, 1, false⟩ playlistOld6 playlistNew6 rfl (by decide) rfl
    (by decide)
  rw [h.1]
  decide

/-- Claim C7: with the current item's media reference dangling, the item
is the current one, yet no media resolves, the timer effect arms nothing,
and the 2-second schedule poll leaves the cursor unchanged — no advance
event can ever fire, so playback stalls at the dangling item instead of
skipping it. -/
theorem c7_dangling_stalls :
    currentPlaylistItem ⟨some playlistDangling7, 0, false⟩ = some ⟨"m1", 5⟩
    ∧ currentMedia [mediaGood7] ⟨some playlistDangling7, 0, false⟩ = none
    ∧ armedTimer (some "d7") [mediaGood7] ⟨some playlistDangling7, 0, false⟩ = none
    ∧ checkScheduleStep [devForced7] "d7" [playlistDangling7] ⟨1, 12, 0⟩
        ⟨some playlistDangling7, 0, false⟩ = ⟨some playlistDangling7, 0, false⟩ := by
  decide

/-- Claim C8, counterexample: a present override duration of 0 is falsy
under JS `||`, so it is not the duration used — the media's 30 s default
wins and the display duration is 30000 ms, not the override's 0 ms. -/
theorem c8_counterexample :
    currentPlaylistItem ⟨some playlistZeroOverride8, 0, false⟩ = some ⟨"m8", 0⟩
    ∧ displayDurationMs [mediaVid8] ⟨some playlistZeroOverride8, 0, false⟩ = 30000
    ∧ displayDurationMs [mediaVid8] ⟨some playlistZeroOverride8, 0, false⟩ ≠ 0 * 1000 := by
  decide

/-- Claim C8, amended: the display duration follows the precedence
override, then media default, then 10 s, but a stage is taken only when
its value is nonzero: a nonzero override is always used; a zero override
falls through to a nonzero media default; and when both are zero the
hard fallback of 10 seconds applies. -/
theorem c8_duration_precedence (lib : List MediaItem) (cursor : PlayerCursor)
    (it : PlaylistItem) (m : MediaItem)
    (hit : currentPlaylistItem cursor = some it)
    (hm : currentMedia lib cursor = some m) :
    (it.duration ≠ 0 → displayDurationMs lib cursor = it.duration * 1000)
    ∧ (it.duration = 0 → m.duration ≠ 0 →
        displayDurationMs lib cursor = m.duration * 1000)
    ∧ (it.duration = 0 → m.duration = 0 → displayDurationMs lib cursor = 10 * 1000) := by
  simp only [displayDurationMs, hit, hm]
  refine ⟨?_, ?_, ?_⟩ <;> intros <;> simp [*]

/-- Claim C8, witness: a nonzero override of 12 s is used as-is even
though the media default is 30 s. -/
theorem c8_witness :
    displayDurationMs [mediaVid8] ⟨some playlistOverride8, 0, false⟩ = 12000 := by
  have h := c8_duration_precedence [mediaVid8] ⟨some playlistOverride8, 0, false⟩
    ⟨"m8", 12⟩ mediaVid8 (by decide) (by decide)
  exact (h.1 (by decide)).trans (by norm_num)

/-- Claim C9, counterexample: the URL `https://a.com/v/abcdefg.mp4`
contains neither "youtube" nor "youtu.be" and ends in ".mp4", yet the
extractor matches its `v/` marker and the 11-character remainder, so this
non-YouTube MP4 URL yields the id "abcdefg.mp4" instead of none. -/
theorem c9_counterexample :
    strOccurs "youtube" "https://a.com/v/abcdefg.mp4" = false
    ∧ strOccurs "youtu.be" "https://a.com/v/abcdefg.mp4" = false
    ∧ strEndsWith ".mp4" "https://a.com/v/abcdefg.mp4" = true
    ∧ getYouTubeId "https://a.com/v/abcdefg.mp4" = some "abcdefg.mp4" := by
  decide

/-- Claim C9, amended: both standard YouTube URL shapes yield the id
"dQw4w9WgXcQ", and an MP4 URL containing none of the marker patterns —
such as `https://example.com/videos/movie.mp4` — yields no id; universal
rejection of all non-YouTube MP4 URLs fails, because a marker substring
followed by an 11-character run is extracted regardless of host. -/
theorem c9_extraction :
    getYouTubeId "https://www.youtube.com/watch?v=dQw4w9WgXcQ" = some "dQw4w9WgXcQ"
    ∧ getYouTubeId "https://youtu.be/dQw4w9WgXcQ" = some "dQw4w9WgXcQ"
    ∧ getYouTubeId "https://example.com/videos/movie.mp4" = none := by
  decide

/-- Claim C10: when a record with the incoming device's id already
exists, registration keeps that record's name, location and forced
assignment, updating only `status` and `lastPing`; records with other
ids are untouched; and the incoming document is stored as a new record
exactly when no record with its id exists. -/
theorem c10_register_device (devices : List ScreenDevice) (device : ScreenDevice)
    (nowMs : Nat) :
    (∀ d ∈ devices, d.id = device.id →
      ({ d with status := "online", lastPing := nowMs } : ScreenDevice) ∈
        registerDevice devices device nowMs)
    ∧ (∀ d ∈ devices, d.id ≠ device.id → d ∈ registerDevice devices device nowMs)
    ∧ ((∀ d ∈ devices, d.id ≠ device.id) →
      registerDevice devices device nowMs = devices ++ [device]) := by
  refine ⟨?_, ?_, ?_⟩
  · intro d hd hid
    have hany : devices.any (fun x => x.id == device.id) = true :=
      List.any_eq_true.mpr ⟨d, hd, by simp [hid]⟩
    unfold registerDevice
    rw [if_pos hany]
    refine List.mem_map.mpr ⟨d, hd, ?_⟩
    simp [hid]
  · intro d hd hid
    unfold registerDevice
    by_cases hany : devices.any (fun x => x.id == device.id) = true
    · rw [if_pos hany]
      refine List.mem_map.mpr ⟨d, hd, ?_⟩
      simp [hid]
    · rw [if_neg hany]
      exact List.mem_append_left _ hd
  · intro hall
    unfold registerDevice
    have hany : ¬ devices.any (fun x => x.id == device.id) = true := by
      intro h
      obtain ⟨d, hd, hbeq⟩ := List.any_eq_true.mp h
      exact hall d hd (by simpa using hbeq)
    rw [if_neg hany]

/-- Claim C10, witness: registering over an existing operator-configured
record keeps its name "Front Desk", location and forced assignment,
refreshing only the presence fields. -/
theorem c10_witness :
    ({ devExisting10 with status := "online", lastPing := 555 } : ScreenDevice) ∈
      registerDevice [devExisting10] devIncoming10 555 :=
  (c10_register_device [devExisting10] devIncoming10 555).1 devExisting10
    (List.mem_singleton.mpr rfl) rfl

end Signton
